import Mathlib

/- Shallow embedding of lemon-gb-core's register file, flags register and
   bit/arithmetic primitives (src/helpers/bit_operations.rs,
   src/cpu/registers.rs, src/cpu/registers/flags.rs).
   u8 and u16 are embedded as Nat with explicit wrapping (% 256 / % 65536);
   i8 is embedded as Int constrained to [-128, 128). -/

namespace LemonGB

/-! ## Bit/arithmetic primitives (src/helpers/bit_operations.rs) -/

/-- Creates a u16 from 2 bytes: `lsb as u16 | ((msb as u16) << 8)`. -/
def construct_u16 (lsb msb : Nat) : Nat :=
  lsb ||| (msb <<< 8)

/-- Deconstructs a u16 into (LSB, MSB): `(value as u8, (value >> 8) as u8)`. -/
def deconstruct_u16 (value : Nat) : Nat × Nat :=
  (value % 256, (value >>> 8) % 256)

/-- Bits are indexed right to left starting from 0: `(value >> i) & 1 == 1`. -/
def get_bit_u8 (value : Nat) (bit_index : Nat) : Bool :=
  ((value >>> bit_index) &&& 1) == 1

/-- Sets a bit: `value | (1 << i)` or `value & !(1 << i)` (u8 complement). -/
def set_bit_u8 (value : Nat) (bit_index : Nat) (bit : Bool) : Nat :=
  if bit then value ||| (1 <<< bit_index)
  else value &&& (255 ^^^ (1 <<< bit_index))

/-- Adds a and b, returning (result, half_carry, carry); u8 wrapping add. -/
def add_u8 (a b : Nat) : Nat × Bool × Bool :=
  ((a + b) % 256,
   decide ((a &&& 0x0F) + (b &&& 0x0F) > 0x0F),
   decide (a + b ≥ 256))

/-- Adds a, b and the given carry; returns (result, half_carry, carry). -/
def add_carry_u8 (a b : Nat) (carry : Bool) : Nat × Bool × Bool :=
  ((a + b + carry.toNat) % 256,
   decide ((a &&& 0x0F) + (b &&& 0x0F) + carry.toNat > 0x0F),
   decide (a + b ≥ 256 ∨ (a + b) % 256 + carry.toNat ≥ 256))

/-- Adds a and b, returning (result, half_carry, carry); u16 wrapping add. -/
def add_u16 (a b : Nat) : Nat × Bool × Bool :=
  ((a + b) % 65536,
   decide ((a &&& 0x0FFF) + (b &&& 0x0FFF) > 0x0FFF),
   decide (a + b ≥ 65536))

/-- The u16 reinterpretation of a signed byte: `b as i16 as u16`. -/
def i8_as_u16 (b : Int) : Nat :=
  (b % 65536).toNat

/-- The u8 reinterpretation of a signed byte: `b as u8` (two's complement). -/
def i8_as_u8 (b : Int) : Nat :=
  (b % 256).toNat

/-- Adds the signed byte b to the two byte unsigned a, returning
(result, half_carry, carry); flags come from the lower 8 bits only. -/
def add_u16_i8 (a : Nat) (b : Int) : Nat × Bool × Bool :=
  let result := (a + i8_as_u16 b) % 65536
  let lower_a := a &&& 0xFF
  let b_u8 := i8_as_u8 b
  let h_carry := decide ((lower_a &&& 0x0F) + (b_u8 &&& 0x0F) > 0x0F)
  let carry := decide (lower_a + b_u8 ≥ 256)
  (result, h_carry, carry)

/-- Subtracts b from a, returning (result, half_carry, carry); u8 wrapping sub. -/
def sub_u8 (a b : Nat) : Nat × Bool × Bool :=
  ((a + 256 - b) % 256,
   decide ((a &&& 0x0F) < (b &&& 0x0F)),
   decide (a < b))

/-- Subtracts b and the given carry from a; returns (result, half_carry, carry). -/
def sub_carry_u8 (a b : Nat) (carry : Bool) : Nat × Bool × Bool :=
  (((a + 256 - b) % 256 + 256 - carry.toNat) % 256,
   decide ((a &&& 0x0F) < (b &&& 0x0F) + carry.toNat),
   decide (a < b ∨ (a + 256 - b) % 256 < carry.toNat))

/-- Rotates the value left by 1 within the byte, returning (result, carry);
carry is the original bit 7. -/
def rotate_left_get_carry_u8 (value : Nat) : Nat × Bool :=
  (((value <<< 1) &&& 255) ||| (value >>> 7), get_bit_u8 value 7)

/-- Rotates the value right by 1 within the byte, returning (result, carry);
carry is the original bit 0. -/
def rotate_right_get_carry_u8 (value : Nat) : Nat × Bool :=
  ((value >>> 1) ||| ((value &&& 1) <<< 7), get_bit_u8 value 0)

/-- Rotates the value right by 1 THROUGH the given carry,
returning (result, new_carry). -/
def rotate_right_through_carry_u8 (value : Nat) (carry : Bool) : Nat × Bool :=
  (set_bit_u8 (value >>> 1) 7 carry, get_bit_u8 value 0)

/-- Rotates the value left by 1 THROUGH the given carry,
returning (result, new_carry). -/
def rotate_left_through_carry_u8 (value : Nat) (carry : Bool) : Nat × Bool :=
  (set_bit_u8 ((value <<< 1) &&& 255) 0 carry, get_bit_u8 value 7)

/-! ## Flags register (src/cpu/registers/flags.rs) -/

def ZERO_FLAG : Nat := 0x80
def SUBTRACT_FLAG : Nat := 0x40
def HALF_CARRY_FLAG : Nat := 0x20
def CARRY_FLAG : Nat := 0x10

def INITIAL_Z : Bool := false
def INITIAL_N : Bool := false
def INITIAL_H : Bool := false
def INITIAL_C : Bool := false

structure CPUFlagsRegister where
  zero : Bool
  subtract : Bool
  half_carry : Bool
  carry : Bool
deriving DecidableEq

def CPUFlagsRegister.initialize : CPUFlagsRegister :=
  { zero := INITIAL_Z, subtract := INITIAL_N,
    half_carry := INITIAL_H, carry := INITIAL_C }

def CPUFlagsRegister.get_zero (f : CPUFlagsRegister) : Bool := f.zero

def CPUFlagsRegister.set_zero (f : CPUFlagsRegister) (value : Bool) :
    CPUFlagsRegister := { f with zero := value }

def CPUFlagsRegister.get_subtract (f : CPUFlagsRegister) : Bool := f.subtract

def CPUFlagsRegister.set_subtract (f : CPUFlagsRegister) (value : Bool) :
    CPUFlagsRegister := { f with subtract := value }

def CPUFlagsRegister.get_half_carry (f : CPUFlagsRegister) : Bool := f.half_carry

def CPUFlagsRegister.set_half_carry (f : CPUFlagsRegister) (value : Bool) :
    CPUFlagsRegister := { f with half_carry := value }

def CPUFlagsRegister.get_carry (f : CPUFlagsRegister) : Bool := f.carry

def CPUFlagsRegister.set_carry (f : CPUFlagsRegister) (value : Bool) :
    CPUFlagsRegister := { f with carry := value }

/-- `impl From<CPUFlagsRegister> for u8`. -/
def CPUFlagsRegister.toByte (value : CPUFlagsRegister) : Nat :=
  (if value.zero then ZERO_FLAG else 0)
    ||| (if value.subtract then SUBTRACT_FLAG else 0)
    ||| (if value.half_carry then HALF_CARRY_FLAG else 0)
    ||| (if value.carry then CARRY_FLAG else 0)

/-- `impl From<u8> for CPUFlagsRegister`. -/
def CPUFlagsRegister.fromByte (value : Nat) : CPUFlagsRegister :=
  { zero := (value &&& ZERO_FLAG) != 0,
    subtract := (value &&& SUBTRACT_FLAG) != 0,
    half_carry := (value &&& HALF_CARRY_FLAG) != 0,
    carry := (value &&& CARRY_FLAG) != 0 }

/-! ## Register file (src/cpu/registers.rs) -/

def INITIAL_A : Nat := 0x01
def INITIAL_B : Nat := 0xFF
def INITIAL_RC : Nat := 0x13
def INITIAL_D : Nat := 0x00
def INITIAL_E : Nat := 0xC1
def INITIAL_RH : Nat := 0x84
def INITIAL_L : Nat := 0x03
def INITIAL_PC : Nat := 0x0100
def INITIAL_SP : Nat := 0xFFFE

structure CPURegisters where
  a : Nat
  b : Nat
  c : Nat
  d : Nat
  e : Nat
  f : CPUFlagsRegister
  h : Nat
  l : Nat
  pc : Nat
  sp : Nat
deriving DecidableEq

def CPURegisters.initialize : CPURegisters :=
  { a := INITIAL_A, b := INITIAL_B, c := INITIAL_RC, d := INITIAL_D,
    e := INITIAL_E, f := CPUFlagsRegister.initialize,
    h := INITIAL_RH, l := INITIAL_L, pc := INITIAL_PC, sp := INITIAL_SP }

def get_a (r : CPURegisters) : Nat := r.a
def set_a (r : CPURegisters) (value : Nat) : CPURegisters := { r with a := value }
def get_b (r : CPURegisters) : Nat := r.b
def set_b (r : CPURegisters) (value : Nat) : CPURegisters := { r with b := value }
def get_c (r : CPURegisters) : Nat := r.c
def set_c (r : CPURegisters) (value : Nat) : CPURegisters := { r with c := value }
def get_d (r : CPURegisters) : Nat := r.d
def set_d (r : CPURegisters) (value : Nat) : CPURegisters := { r with d := value }
def get_e (r : CPURegisters) : Nat := r.e
def set_e (r : CPURegisters) (value : Nat) : CPURegisters := { r with e := value }
def get_h (r : CPURegisters) : Nat := r.h
def set_h (r : CPURegisters) (value : Nat) : CPURegisters := { r with h := value }
def get_l (r : CPURegisters) : Nat := r.l
def set_l (r : CPURegisters) (value : Nat) : CPURegisters := { r with l := value }

def get_f (r : CPURegisters) : Nat := CPUFlagsRegister.toByte r.f
def set_f (r : CPURegisters) (value : Nat) : CPURegisters :=
  { r with f := CPUFlagsRegister.fromByte value }

def get_f_zero (r : CPURegisters) : Bool := r.f.get_zero
def set_f_zero (r : CPURegisters) (value : Bool) : CPURegisters :=
  { r with f := r.f.set_zero value }
def get_f_subtract (r : CPURegisters) : Bool := r.f.get_subtract
def set_f_subtract (r : CPURegisters) (value : Bool) : CPURegisters :=
  { r with f := r.f.set_subtract value }
def get_f_half_carry (r : CPURegisters) : Bool := r.f.get_half_carry
def set_f_half_carry (r : CPURegisters) (value : Bool) : CPURegisters :=
  { r with f := r.f.set_half_carry value }
def get_f_carry (r : CPURegisters) : Bool := r.f.get_carry
def set_f_carry (r : CPURegisters) (value : Bool) : CPURegisters :=
  { r with f := r.f.set_carry value }

def get_pc (r : CPURegisters) : Nat := r.pc
def set_pc (r : CPURegisters) (value : Nat) : CPURegisters := { r with pc := value }
def get_sp (r : CPURegisters) : Nat := r.sp
def set_sp (r : CPURegisters) (value : Nat) : CPURegisters := { r with sp := value }

/-- `self.set_sp(self.get_sp().wrapping_add(1))`. -/
def increment_sp (r : CPURegisters) : CPURegisters :=
  set_sp r ((get_sp r + 1) % 65536)

/-- `self.set_sp(self.get_sp().wrapping_sub(1))`. -/
def decrement_sp (r : CPURegisters) : CPURegisters :=
  set_sp r ((get_sp r + 65536 - 1) % 65536)

def get_af (r : CPURegisters) : Nat := construct_u16 (get_f r) (get_a r)
def set_af (r : CPURegisters) (value : Nat) : CPURegisters :=
  let p := deconstruct_u16 value
  set_a (set_f r p.1) p.2

def get_bc (r : CPURegisters) : Nat := construct_u16 (get_c r) (get_b r)
def set_bc (r : CPURegisters) (value : Nat) : CPURegisters :=
  let p := deconstruct_u16 value
  set_b (set_c r p.1) p.2

def get_de (r : CPURegisters) : Nat := construct_u16 (get_e r) (get_d r)
def set_de (r : CPURegisters) (value : Nat) : CPURegisters :=
  let p := deconstruct_u16 value
  set_d (set_e r p.1) p.2

def get_hl (r : CPURegisters) : Nat := construct_u16 (get_l r) (get_h r)
def set_hl (r : CPURegisters) (value : Nat) : CPURegisters :=
  let p := deconstruct_u16 value
  set_h (set_l r p.1) p.2

/-- One step of threading the carry through the left rotate: the previous
call's (result, new_carry) becomes the next call's (value, carry). -/
def rlc_step (p : Nat × Bool) : Nat × Bool :=
  rotate_left_through_carry_u8 p.1 p.2

/-! ## Helper lemmas -/

lemma and_255 (x : Nat) : x &&& 255 = x % 256 := by
  have h := Nat.and_pow_two_sub_one_eq_mod x 8
  norm_num at h
  exact h

lemma and_15 (x : Nat) : x &&& 15 = x % 16 := by
  have h := Nat.and_pow_two_sub_one_eq_mod x 4
  norm_num at h
  exact h

lemma pow_two_ge_16 (i : Nat) (h : 16 ≤ i) : (65536 : Nat) ≤ 2 ^ i := by
  calc (65536 : Nat) = 2 ^ 16 := by norm_num
    _ ≤ 2 ^ i := Nat.pow_le_pow_right (by norm_num) h

lemma lor_shift8 (x y : Nat) (hx : x < 256) : x ||| (y <<< 8) = x + 256 * y := by
  have hb : x < 2 ^ 8 := by norm_num [hx]
  have h := Nat.mul_add_lt_is_or hb y
  rw [Nat.shiftLeft_eq, Nat.lor_comm x, Nat.mul_comm y, ← h]
  omega

lemma shiftRight8_eq (v : Nat) : v >>> 8 = v / 256 := by
  rw [Nat.shiftRight_eq_div_pow]

lemma and_fff0 (v : Nat) (h : v < 65536) : v &&& 0xFFF0 = v / 16 * 16 := by
  have h1 : v &&& 0xFFF0 = (v >>> 4) <<< 4 := by
    apply Nat.eq_of_testBit_eq
    intro i
    simp only [Nat.testBit_and, Nat.testBit_shiftLeft, Nat.testBit_shiftRight]
    by_cases h4 : 4 ≤ i
    · by_cases h16 : i < 16
      · have hm : (0xFFF0 : Nat).testBit i = true := by interval_cases i <;> decide
        have he : 4 + (i - 4) = i := by omega
        simp [hm, h4, he]
      · have hv : v.testBit i = false :=
          Nat.testBit_lt_two_pow (lt_of_lt_of_le h (pow_two_ge_16 i (by omega)))
        have hm : (0xFFF0 : Nat).testBit i = false :=
          Nat.testBit_lt_two_pow
            (lt_of_lt_of_le (by norm_num) (pow_two_ge_16 i (by omega)))
        have he : 4 + (i - 4) = i := by omega
        simp [hv, hm, he]
    · have hm : (0xFFF0 : Nat).testBit i = false := by interval_cases i <;> decide
      simp [hm, h4]
  rw [h1, Nat.shiftLeft_eq, Nat.shiftRight_eq_div_pow]

set_option maxRecDepth 4000 in
lemma and_f0 : ∀ x : Nat, x < 256 → x &&& 0xF0 = x / 16 * 16 := by decide

set_option maxRecDepth 4000 in
lemma flags_toByte_fromByte : ∀ x : Nat, x < 256 →
    CPUFlagsRegister.toByte ( CPUFlagsRegister.fromByte x) = x &&& 0xF0 := by decide

lemma get_sp_set_sp (r : CPURegisters) (v : Nat) : get_sp (set_sp r v) = v := rfl

lemma construct_deconstruct (v : Nat) (h : v < 65536) :
    construct_u16 (v % 256) ((v >>> 8) % 256) = v := by
  have hhi : v / 256 < 256 := by omega
  rw [construct_u16, shiftRight8_eq, Nat.mod_eq_of_lt hhi,
    lor_shift8 _ _ (Nat.mod_lt _ (by norm_num))]
  omega

/-! ## Claim theorems -/

/-- Claim C1, counterexample: the spec's second borrow vector is false on the
code; sub_u8 0x00 0x01 has half_carry true, not false, because
(0x00 and 0x0F) < (0x01 and 0x0F). -/
theorem sub_u8_spec_vector_refuted_C1 :
    ¬ (sub_u8 0x00 0x01 = (0xFF, false, true)) := by decide

/-- Claim C1 (amended): sub_u8 0x10 0x01 = (0x0F, true, false) and
sub_u8 0x00 0x01 = (0xFF, true, true): the second vector's half_carry is
true, as the borrow of 0x0 - 0x1 crosses the nibble boundary. -/
theorem sub_u8_borrow_vectors_C1 :
    sub_u8 0x10 0x01 = (0x0F, true, false) ∧
    sub_u8 0x00 0x01 = (0xFF, true, true) := by decide

/-- Claim C2, counterexample: the spec's second vector is false on the code;
add_u16 0xFFFF 0x0001 has half_carry true, not false, because
0xFFF + 0x001 > 0xFFF. -/
theorem add_u16_spec_vector_refuted_C2 :
    ¬ (add_u16 0xFFFF 0x0001 = (0x0000, false, true)) := by decide

/-- Claim C2 (amended): add_u16 0x0FFF 0x0001 = (0x1000, true, false) and
add_u16 0xFFFF 0x0001 = (0x0000, true, true): the second vector also
overflows out of bit 11, so its half_carry is true. -/
theorem add_u16_boundary_vectors_C2 :
    add_u16 0x0FFF 0x0001 = (0x1000, true, false) ∧
    add_u16 0xFFFF 0x0001 = (0x0000, true, true) := by decide

/-- Claim C3: for every 16-bit a and signed byte b, add_u16_i8 returns the
wrapping (mod 2^16) sum of a and the sign-extended b, with half_carry and
carry computed from the 8-bit addition of the low byte of a and the raw
two's-complement byte of b; in particular add_u16_i8 0x00FF (-1) reports the
same flags as the 8-bit addition 0xFF + 0xFF. -/
theorem add_u16_i8_flags_C3 (a : Nat) (b : Int) (ha : a < 65536)
    (hb1 : -128 ≤ b) (hb2 : b < 128) :
    (((add_u16_i8 a b).1 : Nat) : Int) = ((a : Int) + b) % 65536 ∧
    (add_u16_i8 a b).2.1 = decide (a % 256 % 16 + (b % 256).toNat % 16 > 15) ∧
    (add_u16_i8 a b).2.2 = decide (a % 256 + (b % 256).toNat ≥ 256) ∧
    (add_u16_i8 0x00FF (-1)).2 = (add_u8 0xFF 0xFF).2 := by
  refine ⟨?_, ?_, ?_, by decide⟩
  · simp only [add_u16_i8, i8_as_u16]
    omega
  · simp only [add_u16_i8, i8_as_u8, and_255, and_15]
  · simp only [add_u16_i8, i8_as_u8, and_255]

/-- Claim C3, witness at a = 0x00FF, b = -1. -/
theorem add_u16_i8_flags_C3_witness :
    (((add_u16_i8 255 (-1)).1 : Nat) : Int) = ((255 : Nat) + (-1)) % 65536 ∧
    (add_u16_i8 255 (-1)).2.1 =
      decide (255 % 256 % 16 + ((-1 : Int) % 256).toNat % 16 > 15) ∧
    (add_u16_i8 255 (-1)).2.2 =
      decide (255 % 256 + ((-1 : Int) % 256).toNat ≥ 256) ∧
    (add_u16_i8 0x00FF (-1)).2 = (add_u8 0xFF 0xFF).2 :=
  add_u16_i8_flags_C3 255 (-1) (by norm_num) (by norm_num) (by norm_num)

/-- Claim C4, counterexample: applying rotate_left_through_carry_u8 four times
with the carry threaded through does not return (1, false) to itself; it
yields (16, false), since four applications rotate the 9-bit register by only
four positions. -/
theorem rotate_left_through_carry_four_refuted_C4 :
    ¬ (rlc_step^[4] (1, false) = (1, false)) := by decide

set_option maxRecDepth 8000 in
/-- Claim C4 (amended): applying rotate_left_through_carry_u8 NINE times (not
four), each time threading the returned new carry into the next call, yields
back the original (value, carry) pair: the 9-bit register (8 data bits plus
the carry bit) returns to its original position after 9 single-bit
rotations. -/
theorem rotate_left_through_carry_nine_cycle_C4 :
    ∀ v : Nat, v < 256 → ∀ c : Bool, rlc_step^[9] (v, c) = (v, c) := by decide

/-- Claim C4, witness at v = 0xAB, c = true. -/
theorem rotate_left_through_carry_nine_cycle_C4_witness :
    rlc_step^[9] (0xAB, true) = (0xAB, true) :=
  rotate_left_through_carry_nine_cycle_C4 0xAB (by norm_num) true

set_option maxRecDepth 4000 in
/-- Claim C5: converting a byte to the flags register and back yields the byte
with its low nibble cleared, and the four flags sit at bits 7 (zero),
6 (subtract), 5 (half_carry) and 4 (carry). -/
theorem flags_byte_roundtrip_C5 :
    ∀ b : Nat, b < 256 →
      CPUFlagsRegister.toByte ( CPUFlagsRegister.fromByte b) = b &&& 0xF0 ∧
      ( CPUFlagsRegister.fromByte b).zero = b.testBit 7 ∧
      ( CPUFlagsRegister.fromByte b).subtract = b.testBit 6 ∧
      ( CPUFlagsRegister.fromByte b).half_carry = b.testBit 5 ∧
      ( CPUFlagsRegister.fromByte b).carry = b.testBit 4 := by decide

/-- Claim C5, witness at b = 0xB7. -/
theorem flags_byte_roundtrip_C5_witness :
    CPUFlagsRegister.toByte ( CPUFlagsRegister.fromByte 0xB7) = 0xB7 &&& 0xF0 ∧
    ( CPUFlagsRegister.fromByte 0xB7).zero = (0xB7 : Nat).testBit 7 ∧
    ( CPUFlagsRegister.fromByte 0xB7).subtract = (0xB7 : Nat).testBit 6 ∧
    ( CPUFlagsRegister.fromByte 0xB7).half_carry = (0xB7 : Nat).testBit 5 ∧
    ( CPUFlagsRegister.fromByte 0xB7).carry = (0xB7 : Nat).testBit 4 :=
  flags_byte_roundtrip_C5 0xB7 (by norm_num)

/-- Claim C6: writing a 16-bit value to bc, de or hl and reading it back
returns the value exactly; writing af returns the value with the low nibble
masked to zero (the flags register drops bits 3-0); and the first named
register of a pair holds the high byte: after set_bc 0x1234, b is 0x12 and c
is 0x34. -/
theorem pair_roundtrip_C6 (r : CPURegisters) (v : Nat) (h : v < 65536) :
    get_bc (set_bc r v) = v ∧
    get_de (set_de r v) = v ∧
    get_hl (set_hl r v) = v ∧
    get_af (set_af r v) = v &&& 0xFFF0 ∧
    get_b (set_bc r 0x1234) = 0x12 ∧
    get_c (set_bc r 0x1234) = 0x34 := by
  have hlo : v % 256 < 256 := Nat.mod_lt _ (by norm_num)
  have hcon := construct_deconstruct v h
  refine ⟨hcon, hcon, hcon, ?_, rfl, rfl⟩
  show construct_u16
    ( CPUFlagsRegister.toByte ( CPUFlagsRegister.fromByte (v % 256)))
    ((v >>> 8) % 256) = v &&& 0xFFF0
  have hhi : v / 256 < 256 := by omega
  rw [flags_toByte_fromByte (v % 256) hlo, construct_u16, shiftRight8_eq,
    Nat.mod_eq_of_lt hhi,
    lor_shift8 _ _ (lt_of_le_of_lt Nat.and_le_left hlo),
    and_f0 (v % 256) hlo, and_fff0 v h]
  omega

/-- Claim C6, witness at the power-up register state and v = 0xBEEF. -/
theorem pair_roundtrip_C6_witness :
    get_bc (set_bc CPURegisters.initialize 0xBEEF) = 0xBEEF ∧
    get_de (set_de CPURegisters.initialize 0xBEEF) = 0xBEEF ∧
    get_hl (set_hl CPURegisters.initialize 0xBEEF) = 0xBEEF ∧
    get_af (set_af CPURegisters.initialize 0xBEEF) = 0xBEEF &&& 0xFFF0 ∧
    get_b (set_bc CPURegisters.initialize 0x1234) = 0x12 ∧
    get_c (set_bc CPURegisters.initialize 0x1234) = 0x34 :=
  pair_roundtrip_C6 CPURegisters.initialize 0xBEEF (by norm_num)

/-- Claim C7: the power-up initialization yields a = 0x01, b = 0xFF, c = 0x13,
d = 0x00, e = 0xC1, h = 0x84, l = 0x03, pc = 0x0100, sp = 0xFFFE and all four
flags clear. -/
theorem power_up_state_C7 :
    get_a CPURegisters.initialize = 0x01 ∧
    get_b CPURegisters.initialize = 0xFF ∧
    get_c CPURegisters.initialize = 0x13 ∧
    get_d CPURegisters.initialize = 0x00 ∧
    get_e CPURegisters.initialize = 0xC1 ∧
    get_h CPURegisters.initialize = 0x84 ∧
    get_l CPURegisters.initialize = 0x03 ∧
    get_pc CPURegisters.initialize = 0x0100 ∧
    get_sp CPURegisters.initialize = 0xFFFE ∧
    get_f_zero CPURegisters.initialize = false ∧
    get_f_subtract CPURegisters.initialize = false ∧
    get_f_half_carry CPURegisters.initialize = false ∧
    get_f_carry CPURegisters.initialize = false := by decide

lemma get_a_set_sp (r : CPURegisters) (v : Nat) : get_a (set_sp r v) = get_a r := rfl

lemma get_b_set_sp (r : CPURegisters) (v : Nat) : get_b (set_sp r v) = get_b r := rfl

lemma get_c_set_sp (r : CPURegisters) (v : Nat) : get_c (set_sp r v) = get_c r := rfl

lemma get_d_set_sp (r : CPURegisters) (v : Nat) : get_d (set_sp r v) = get_d r := rfl

lemma get_e_set_sp (r : CPURegisters) (v : Nat) : get_e (set_sp r v) = get_e r := rfl

lemma get_h_set_sp (r : CPURegisters) (v : Nat) : get_h (set_sp r v) = get_h r := rfl

lemma get_l_set_sp (r : CPURegisters) (v : Nat) : get_l (set_sp r v) = get_l r := rfl

lemma get_pc_set_sp (r : CPURegisters) (v : Nat) : get_pc (set_sp r v) = get_pc r := rfl

lemma get_f_set_sp (r : CPURegisters) (v : Nat) : get_f (set_sp r v) = get_f r := rfl

/-- Claim C8: increment_sp and decrement_sp are total functions that wrap
modulo 2^16 (incrementing sp = 0xFFFF gives 0x0000; decrementing sp = 0x0000
gives 0xFFFF) and leave every other register field unchanged. -/
theorem sp_wrap_C8 (r : CPURegisters) :
    get_sp (increment_sp r) = (get_sp r + 1) % 65536 ∧
    get_sp (decrement_sp r) = (get_sp r + 65536 - 1) % 65536 ∧
    get_sp (increment_sp (set_sp r 0xFFFF)) = 0x0000 ∧
    get_sp (decrement_sp (set_sp r 0x0000)) = 0xFFFF ∧
    get_a (increment_sp r) = get_a r ∧
    get_b (increment_sp r) = get_b r ∧
    get_c (increment_sp r) = get_c r ∧
    get_d (increment_sp r) = get_d r ∧
    get_e (increment_sp r) = get_e r ∧
    get_h (increment_sp r) = get_h r ∧
    get_l (increment_sp r) = get_l r ∧
    get_pc (increment_sp r) = get_pc r ∧
    get_f (increment_sp r) = get_f r ∧
    get_a (decrement_sp r) = get_a r ∧
    get_b (decrement_sp r) = get_b r ∧
    get_c (decrement_sp r) = get_c r ∧
    get_d (decrement_sp r) = get_d r ∧
    get_e (decrement_sp r) = get_e r ∧
    get_h (decrement_sp r) = get_h r ∧
    get_l (decrement_sp r) = get_l r ∧
    get_pc (decrement_sp r) = get_pc r ∧
    get_f (decrement_sp r) = get_f r := by
  norm_num [increment_sp, decrement_sp, get_sp_set_sp, get_a_set_sp,
    get_b_set_sp, get_c_set_sp, get_d_set_sp, get_e_set_sp, get_h_set_sp,
    get_l_set_sp, get_pc_set_sp, get_f_set_sp]

/-- Claim C9: each individual flag setter changes only its own flag to the
given value and leaves the other three flags unchanged. -/
theorem flag_setters_frame_C9 (f : CPUFlagsRegister) (v : Bool) :
    ((f.set_zero v).get_zero = v ∧
     (f.set_zero v).get_subtract = f.get_subtract ∧
     (f.set_zero v).get_half_carry = f.get_half_carry ∧
     (f.set_zero v).get_carry = f.get_carry) ∧
    ((f.set_subtract v).get_subtract = v ∧
     (f.set_subtract v).get_zero = f.get_zero ∧
     (f.set_subtract v).get_half_carry = f.get_half_carry ∧
     (f.set_subtract v).get_carry = f.get_carry) ∧
    ((f.set_half_carry v).get_half_carry = v ∧
     (f.set_half_carry v).get_zero = f.get_zero ∧
     (f.set_half_carry v).get_subtract = f.get_subtract ∧
     (f.set_half_carry v).get_carry = f.get_carry) ∧
    ((f.set_carry v).get_carry = v ∧
     (f.set_carry v).get_zero = f.get_zero ∧
     (f.set_carry v).get_subtract = f.get_subtract ∧
     (f.set_carry v).get_half_carry = f.get_half_carry) :=
  ⟨⟨rfl, rfl, rfl, rfl⟩, ⟨rfl, rfl, rfl, rfl⟩,
   ⟨rfl, rfl, rfl, rfl⟩, ⟨rfl, rfl, rfl, rfl⟩⟩

set_option maxRecDepth 8000 in
/-- Claim C10: the two through-carry rotations are mutual inverses: feeding
the (result, new_carry) of a left rotation into the right rotation recovers
the original (value, carry), and symmetrically. -/
theorem through_carry_rotates_inverse_C10 :
    ∀ v : Nat, v < 256 → ∀ c : Bool,
      rotate_right_through_carry_u8 (rotate_left_through_carry_u8 v c).1
        (rotate_left_through_carry_u8 v c).2 = (v, c) ∧
      rotate_left_through_carry_u8 (rotate_right_through_carry_u8 v c).1
        (rotate_right_through_carry_u8 v c).2 = (v, c) := by decide

/-- Claim C10, witness at v = 0xA5, c = true. -/
theorem through_carry_rotates_inverse_C10_witness :
    rotate_right_through_carry_u8 (rotate_left_through_carry_u8 0xA5 true).1
      (rotate_left_through_carry_u8 0xA5 true).2 = (0xA5, true) ∧
    rotate_left_through_carry_u8 (rotate_right_through_carry_u8 0xA5 true).1
      (rotate_right_through_carry_u8 0xA5 true).2 = (0xA5, true) :=
  through_carry_rotates_inverse_C10 0xA5 (by norm_num) true

end LemonGB
